import Mathlib

/-!
Verification of the CRUST 1.0 point-query model (`crust1/models.py`).

The embedding models latitudes and longitudes as rationals, the four
grids as total functions on `Fin 180 × Fin 360 × Fin 9`, and numpy basic
integer indexing (including its silent wrapping of negative indices and
its `IndexError` on anything outside `[-n, n)`) as an `Option`-valued
lookup.  `get_point` therefore returns
`Option (List (String × LayerData))`: `none` is the `IndexError` path,
and the list (in insertion order) is the returned dict.
-/

namespace Crust1

/-- One entry of the returned mapping: the record
`{vp, vs, rho, layer_thickness, bnd}` built for each included layer. -/
structure LayerData where
  vp : ℚ
  vs : ℚ
  rho : ℚ
  layer_thickness : ℚ
  bnd : ℚ
deriving DecidableEq, Repr

/-- The model state: the four reshaped `(180, 360, 9)` grids.
The layer-name list is a fixed constant (`layer_names` below), so it is
not a field. -/
structure CrustModel where
  vp : Fin 180 → Fin 360 → Fin 9 → ℚ
  vs : Fin 180 → Fin 360 → Fin 9 → ℚ
  rho : Fin 180 → Fin 360 → Fin 9 → ℚ
  bnds : Fin 180 → Fin 360 → Fin 9 → ℚ

/-- `self.layer_names`: the nine possible layers, in order. -/
def layer_names : List String :=
  ["water", "ice", "upper_sediments", "middle_sediments", "lower_sediments",
   "upper_crust", "middle_crust", "lower_crust", "mantle"]

/-- Name of the layer at index `i` along the layer axis (the `layer`
variable of `for i, layer in enumerate(self.layer_names)`). -/
def layerName (i : Fin 9) : String :=
  layer_names.getD i.1 ""

/-- The longitude-correction pass at the top of `_get_index`:
`if lon > 180: lon -= 360` then `if lon < -180: lon += 360`.
A single pass, not a modulo reduction. -/
def correctLon (lon : ℚ) : ℚ :=
  let lon1 := if lon > 180 then lon - 360 else lon
  if lon1 < -180 then lon1 + 360 else lon1

/-- `_get_index`: `ilat = floor(90. - lat)`, `ilon = floor(180 + lon)`
after the longitude correction.  No bounds check is made here. -/
def get_index (lat lon : ℚ) : ℤ × ℤ :=
  (⌊(90 : ℚ) - lat⌋, ⌊(180 : ℚ) + correctLon lon⌋)

/-- NumPy basic integer indexing on an axis of length `n`: an index in
`[0, n)` is used as is, an index in `[-n, 0)` silently wraps to `i + n`,
and anything else raises `IndexError` (here: `none`). -/
def npIndex (n : ℕ) (i : ℤ) : Option (Fin n) :=
  if h : 0 ≤ i ∧ i < (n : ℤ) then some ⟨i.toNat, by omega⟩
  else if h2 : -(n : ℤ) ≤ i ∧ i < 0 then some ⟨(i + n).toNat, by omega⟩
  else none

/-- `np.abs(np.ediff1d(bnds_row, to_end=[0]))`: the eight consecutive
differences of the boundary row, a zero appended after them, all in
absolute value.  In particular entry 8 (the mantle) is `|0| = 0`. -/
def thicknessRow (b : Fin 9 → ℚ) (i : Fin 9) : ℚ :=
  if h : i.1 + 1 < 9 then |b ⟨i.1 + 1, h⟩ - b i| else |(0 : ℚ)|

/-- The loop range of `enumerate(self.layer_names)`: indices 0..8. -/
def layerIndices : List (Fin 9) :=
  [⟨0, by omega⟩, ⟨1, by omega⟩, ⟨2, by omega⟩, ⟨3, by omega⟩, ⟨4, by omega⟩,
   ⟨5, by omega⟩, ⟨6, by omega⟩, ⟨7, by omega⟩, ⟨8, by omega⟩]

/-- The body of the loop over `enumerate(self.layer_names)`: keep layer
`i` iff `((include_no_thickness == False) & (layer_thickness >= 0.01))
or layer == "mantle"`, and build its record. -/
def pointLayers (m : CrustModel) (ilat : Fin 180) (ilon : Fin 360)
    (include_no_thickness : Bool) : List (String × LayerData) :=
  layerIndices.filterMap fun i =>
    let layer_thickness := thicknessRow (m.bnds ilat ilon) i
    let layer := layerName i
    if (include_no_thickness = false ∧ (1 : ℚ)/100 ≤ layer_thickness)
        ∨ layer = "mantle" then
      some (layer,
        { vp := m.vp ilat ilon i
          vs := m.vs ilat ilon i
          rho := m.rho ilat ilon i
          layer_thickness := layer_thickness
          bnd := m.bnds ilat ilon i })
    else none

/-- `get_point`: compute the bucket indices, read the grids there
(possibly raising `IndexError`, i.e. `none`), and assemble the mapping. -/
def get_point (m : CrustModel) (lat lon : ℚ)
    (include_no_thickness : Bool) : Option (List (String × LayerData)) :=
  (npIndex 180 (get_index lat lon).1).bind fun ilat =>
    (npIndex 360 (get_index lat lon).2).bind fun ilon =>
      some (pointLayers m ilat ilon include_no_thickness)

/-- `get_point` seen as a state transformer on the model object.  The
method body only reads `self.vp`, `self.vs`, `self.rho`, `self.bnds`
and `self.layer_names` and never assigns to `self`, so the post-state
is the pre-state. -/
def get_pointS (m : CrustModel) (lat lon : ℚ)
    (include_no_thickness : Bool) :
    Option (List (String × LayerData)) × CrustModel :=
  (get_point m lat lon include_no_thickness, m)

/-- A concrete model instance used to evaluate the definitions: every
interior boundary gap is 1 km (so every layer passes the 0.01
threshold) and the mantle top sits at elevation −8. -/
def testModel : CrustModel where
  vp := fun _ _ k => (k.1 : ℚ)
  vs := fun _ _ k => (k.1 : ℚ) + 10
  rho := fun _ _ k => (k.1 : ℚ) + 20
  bnds := fun _ _ k => -(k.1 : ℚ)

/-! ### Helper lemmas -/

theorem mem_layerIndices (i : Fin 9) : i ∈ layerIndices := by
  fin_cases i <;> simp [layerIndices]

theorem npIndex_eq_none_iff (n : ℕ) (i : ℤ) :
    npIndex n i = none ↔ ¬(-(n : ℤ) ≤ i ∧ i < (n : ℤ)) := by
  unfold npIndex
  split_ifs with h h2 <;> simp <;> omega

theorem npIndex_of_nonneg {n : ℕ} {i : ℤ} (h0 : 0 ≤ i) (hn : i < (n : ℤ)) :
    npIndex n i = some ⟨i.toNat, by omega⟩ := by
  unfold npIndex
  rw [dif_pos ⟨h0, hn⟩]

theorem correctLon_eq_self {lon : ℚ} (h1 : -180 ≤ lon) (h2 : lon ≤ 180) :
    correctLon lon = lon := by
  simp only [correctLon]
  split_ifs <;> linarith

theorem get_point_eq_some {m : CrustModel} {lat lon : ℚ} {inc : Bool}
    {ilat : Fin 180} {ilon : Fin 360}
    (hA : npIndex 180 (get_index lat lon).1 = some ilat)
    (hB : npIndex 360 (get_index lat lon).2 = some ilon) :
    get_point m lat lon inc = some (pointLayers m ilat ilon inc) := by
  simp [get_point, hA, hB]

theorem get_point_none_iff (m : CrustModel) (lat lon : ℚ) (inc : Bool) :
    get_point m lat lon inc = none ↔
      npIndex 180 (get_index lat lon).1 = none ∨
      npIndex 360 (get_index lat lon).2 = none := by
  cases hA : npIndex 180 (get_index lat lon).1 <;>
    cases hB : npIndex 360 (get_index lat lon).2 <;>
      simp [get_point, hA, hB]

theorem mem_pointLayers {m : CrustModel} {ilat : Fin 180} {ilon : Fin 360}
    {inc : Bool} {p : String × LayerData} :
    p ∈ pointLayers m ilat ilon inc ↔
      ∃ i : Fin 9,
        ((inc = false ∧ (1 : ℚ)/100 ≤ thicknessRow (m.bnds ilat ilon) i)
          ∨ layerName i = "mantle") ∧
        p = (layerName i,
          { vp := m.vp ilat ilon i
            vs := m.vs ilat ilon i
            rho := m.rho ilat ilon i
            layer_thickness := thicknessRow (m.bnds ilat ilon) i
            bnd := m.bnds ilat ilon i }) := by
  simp only [pointLayers, List.mem_filterMap]
  constructor
  · rintro ⟨i, -, hi⟩
    split_ifs at hi with hcond
    exact ⟨i, hcond, by injection hi with h; exact h.symm⟩
  · rintro ⟨i, hcond, rfl⟩
    exact ⟨i, mem_layerIndices i, by rw [if_pos hcond]⟩

theorem layerName_eq_mantle {i : Fin 9} (h : layerName i = "mantle") :
    i = ⟨8, by omega⟩ := by
  fin_cases i <;> simp_all [layerName, layer_names]

theorem thicknessRow_last (b : Fin 9 → ℚ) :
    thicknessRow b ⟨8, by omega⟩ = 0 := by
  simp [thicknessRow]

theorem mantle_mem_pointLayers (m : CrustModel) (ilat : Fin 180)
    (ilon : Fin 360) (inc : Bool) :
    "mantle" ∈ (pointLayers m ilat ilon inc).map Prod.fst := by
  refine List.mem_map.mpr ⟨_, mem_pointLayers.mpr ⟨⟨8, by omega⟩, Or.inr rfl, rfl⟩, rfl⟩

/-! ### Claim theorems -/

/-- C1: the claim states that `get_point(lat, lon, include_no_thickness=true)`
returns all nine layers.  In the code the guard
`((include_no_thickness == False) & (layer_thickness >= 0.01)) or layer == "mantle"`
collapses to `layer == "mantle"` when the flag is true, so the returned
mapping holds exactly the single key `"mantle"` — for every model and
every in-range point — while the flag's documented meaning (and
`include_no_thickness=false`) gives the thickness-filtered layers plus
the mantle.  The code contradicts its own docstring; the claim is the
intent. -/
theorem include_true_returns_only_mantle :
    (∀ (m : CrustModel) (ilat : Fin 180) (ilon : Fin 360),
      (pointLayers m ilat ilon true).map Prod.fst = ["mantle"]) ∧
    (get_point testModel 0 0 true).map (List.map Prod.fst) = some ["mantle"] ∧
    (get_point testModel 0 0 false).map (List.map Prod.fst) = some layer_names := by
  refine ⟨fun m ilat ilon => rfl, ?_, ?_⟩
  · norm_num [get_point, get_index, correctLon, npIndex, pointLayers, layerIndices,
      thicknessRow, layerName, layer_names, testModel, List.filterMap_cons,
      List.getElem_cons_zero, List.getElem_cons_succ]
    simp
  · norm_num [get_point, get_index, correctLon, npIndex, pointLayers, layerIndices,
      thicknessRow, layerName, layer_names, testModel, List.filterMap_cons,
      List.getElem_cons_zero, List.getElem_cons_succ]

/-- C5 (corrected): `_get_index(90, -180) = (0, 0)` as claimed, but
`_get_index(-90, 180) = (180, 360)`: longitude 180 is *not* wrapped to
−180, because the correction fires only for `lon > 180` strictly. -/
theorem get_index_corner_values :
    get_index 90 (-180) = (0, 0) ∧ get_index (-90) 180 = (180, 360) := by
  constructor <;> norm_num [get_index, correctLon, Prod.ext_iff]

/-- C5 counterexample: the claim states `_get_index(-90, 180) = (180, 0)`;
in fact it is `(180, 360)`. -/
theorem get_index_south_east_corner_not_wrapped :
    get_index (-90) 180 = (180, 360) ∧ ((180, 360) : ℤ × ℤ) ≠ (180, 0) := by
  constructor
  · norm_num [get_index, correctLon, Prod.ext_iff]
  · decide

/-- C9: `get_point` is deterministic — two calls on the same model with
equal `(lat, lon, include_no_thickness)` arguments give equal results
(the embedding is a pure function of the model and the arguments). -/
theorem get_point_deterministic (m : CrustModel) (lat1 lon1 : ℚ) (inc1 : Bool)
    (lat2 lon2 : ℚ) (inc2 : Bool)
    (hlat : lat1 = lat2) (hlon : lon1 = lon2) (hinc : inc1 = inc2) :
    get_point m lat1 lon1 inc1 = get_point m lat2 lon2 inc2 := by
  rw [hlat, hlon, hinc]

/-- C9 witness: determinism instantiated at a concrete call. -/
theorem get_point_deterministic_witness :
    get_point testModel 0 0 false = get_point testModel 0 0 false :=
  get_point_deterministic testModel 0 0 false 0 0 false rfl rfl rfl

/-- C8: a failing `get_point` call leaves the model unchanged (the
method never assigns to `self`), and a subsequent call on the resulting
state agrees with a call on the original model. -/
theorem failed_query_preserves_state (m : CrustModel) (lat lon : ℚ)
    (inc : Bool) (lat2 lon2 : ℚ) (inc2 : Bool)
    (hfail : (get_pointS m lat lon inc).1 = none) :
    (get_pointS m lat lon inc).2 = m ∧
    get_point (get_pointS m lat lon inc).2 lat2 lon2 inc2 =
      get_point m lat2 lon2 inc2 :=
  ⟨rfl, rfl⟩

/-- C8 witness: the failing call `get_point(300, 0)` (latitude bucket
−210, out of numpy range) leaves `testModel` reusable. -/
theorem failed_query_preserves_state_witness :
    (get_pointS testModel 300 0 false).2 = testModel ∧
    get_point (get_pointS testModel 300 0 false).2 0 0 false =
      get_point testModel 0 0 false :=
  failed_query_preserves_state testModel 300 0 false 0 0 false
    (by norm_num [get_pointS, get_point, get_index, correctLon, npIndex])

/-- The full mapping returned by `get_point(0, 0)` on `testModel` with
`include_no_thickness=false`: all eight 1-km layers pass the 0.01
threshold, and the mantle entry carries `layer_thickness = 0`. -/
def samplePoint : List (String × LayerData) :=
  [("water", ⟨0, 10, 20, 1, 0⟩), ("ice", ⟨1, 11, 21, 1, -1⟩),
   ("upper_sediments", ⟨2, 12, 22, 1, -2⟩), ("middle_sediments", ⟨3, 13, 23, 1, -3⟩),
   ("lower_sediments", ⟨4, 14, 24, 1, -4⟩), ("upper_crust", ⟨5, 15, 25, 1, -5⟩),
   ("middle_crust", ⟨6, 16, 26, 1, -6⟩), ("lower_crust", ⟨7, 17, 27, 1, -7⟩),
   ("mantle", ⟨8, 18, 28, 0, -8⟩)]

theorem get_point_sample : get_point testModel 0 0 false = some samplePoint := by
  norm_num [get_point, get_index, correctLon, npIndex, pointLayers, layerIndices,
    thicknessRow, layerName, layer_names, testModel, samplePoint, List.filterMap_cons,
    List.getElem_cons_zero, List.getElem_cons_succ]

/-- C2 (amended): `np.ediff1d(..., to_end=[0])` appends the zero to the
*differences*, not to the boundary vector, so the mantle entry's
`layer_thickness` is always exactly 0 — not `|bnds[ilat, ilon, 8] − 0|`
as the claim states. -/
theorem mantle_thickness_always_zero (m : CrustModel) (lat lon : ℚ)
    (inc : Bool) (l : List (String × LayerData)) (p : String × LayerData)
    (h : get_point m lat lon inc = some l) (hp : p ∈ l)
    (hname : p.1 = "mantle") : p.2.layer_thickness = 0 := by
  rcases hA : npIndex 180 (get_index lat lon).1 with _ | ilat
  · rw [(get_point_none_iff m lat lon inc).mpr (Or.inl hA)] at h
    exact absurd h (by simp)
  rcases hB : npIndex 360 (get_index lat lon).2 with _ | ilon
  · rw [(get_point_none_iff m lat lon inc).mpr (Or.inr hB)] at h
    exact absurd h (by simp)
  rw [get_point_eq_some hA hB] at h
  injection h with h
  subst h
  rcases mem_pointLayers.mp hp with ⟨i, -, rfl⟩
  have hi : i = ⟨8, by omega⟩ := layerName_eq_mantle hname
  subst hi
  show thicknessRow (m.bnds ilat ilon) ⟨8, by omega⟩ = 0
  exact thicknessRow_last _

/-- C2 witness: the theorem applied to the mantle entry of the sample
query. -/
theorem mantle_thickness_always_zero_witness :
    (LayerData.mk 8 18 28 0 (-8)).layer_thickness = 0 :=
  mantle_thickness_always_zero testModel 0 0 false samplePoint
    ("mantle", ⟨8, 18, 28, 0, -8⟩) get_point_sample (by simp [samplePoint]) rfl

/-- C2 counterexample: at `testModel`, point (0, 0), the mantle's top
boundary is −8, so the claimed value `|bnds[ilat, ilon, 8] − 0|` is 8,
but the returned `layer_thickness` of the mantle entry is 0. -/
theorem mantle_thickness_neq_abs_boundary :
    get_point testModel 0 0 false = some samplePoint ∧
    (samplePoint.lookup "mantle").map LayerData.layer_thickness = some 0 ∧
    |testModel.bnds ⟨90, by omega⟩ ⟨180, by omega⟩ ⟨8, by omega⟩ - 0| = 8 ∧
    (0 : ℚ) ≠ 8 := by
  refine ⟨get_point_sample, by simp [samplePoint, List.lookup], ?_, by norm_num⟩
  norm_num [testModel]

/-- C3 (amended): `get_point` raises `IndexError` exactly when the
bucket pair leaves `[-180, 180) × [-360, 360)` — not `[0, 180) × [0, 360)`
as the claim states.  A negative bucket inside numpy's wrap range is
silently translated by the axis length and *returns data*, so silent
substitution does occur for coordinates such as `lat = 91`. -/
theorem get_point_raises_iff_out_of_numpy_range (m : CrustModel)
    (lat lon : ℚ) (inc : Bool) :
    (get_point m lat lon inc = none ↔
      ¬(-180 ≤ (get_index lat lon).1 ∧ (get_index lat lon).1 < 180 ∧
        -360 ≤ (get_index lat lon).2 ∧ (get_index lat lon).2 < 360)) ∧
    (-180 ≤ (get_index lat lon).1 → (get_index lat lon).1 < 0 →
      -360 ≤ (get_index lat lon).2 → (get_index lat lon).2 < 360 →
      (get_point m lat lon inc).isSome = true) := by
  constructor
  · rw [get_point_none_iff, npIndex_eq_none_iff, npIndex_eq_none_iff]
    push_cast
    omega
  · intro h1 h2 h3 h4
    rcases hA : npIndex 180 (get_index lat lon).1 with _ | ilat
    · have hx := (npIndex_eq_none_iff 180 _).mp hA
      push_cast at hx
      omega
    rcases hB : npIndex 360 (get_index lat lon).2 with _ | ilon
    · have hx := (npIndex_eq_none_iff 360 _).mp hB
      push_cast at hx
      omega
    rw [get_point_eq_some hA hB]
    rfl

/-- C3 witness: `lat = 91` has bucket −1, inside numpy's wrap range, so
the query succeeds. -/
theorem get_point_raises_iff_witness :
    (get_point testModel 91 0 false).isSome = true :=
  (get_point_raises_iff_out_of_numpy_range testModel 91 0 false).2
    (by norm_num [get_index, correctLon]) (by norm_num [get_index, correctLon])
    (by norm_num [get_index, correctLon]) (by norm_num [get_index, correctLon])

/-- C3 counterexample: `lat = 91, lon = 0` yields latitude bucket −1,
outside `[0, 180)`, yet `get_point` *returns data* (numpy wraps −1 to
row 179) instead of raising. -/
theorem negative_bucket_silently_wrapped :
    (get_index 91 0).1 = -1 ∧ ¬(0 ≤ (get_index 91 0).1) ∧
    (get_point testModel 91 0 false).isSome = true := by
  refine ⟨?_, ?_, ?_⟩ <;>
    norm_num [get_point, get_index, correctLon, npIndex, pointLayers]

/-- C4 (amended): shifting the longitude by ±360 is invariant whenever
the original longitude lies in `[-180, 180)` and the shifted value,
after the single correction pass, also lands in `[-180, 180)`.  (At
`lon = -180` the +360 shift corrects to exactly 180, which raises while
the original succeeds, so the closed interval of the claim is wrong.) -/
theorem lon_shift_invariance (m : CrustModel) (lat lon s : ℚ) (inc : Bool)
    (hs : s = 360 ∨ s = -360) (h1 : -180 ≤ lon) (h2 : lon < 180)
    (h3 : -180 ≤ correctLon (lon + s)) (h4 : correctLon (lon + s) < 180) :
    get_point m lat (lon + s) inc = get_point m lat lon inc := by
  have hl : correctLon lon = lon := correctLon_eq_self h1 h2.le
  have hcl : correctLon (lon + s) = lon := by
    rcases hs with rfl | rfl <;>
      (simp only [correctLon] at h3 h4 ⊢; split_ifs at h3 h4 ⊢ <;> linarith)
  have hidx : get_index lat (lon + s) = get_index lat lon := by
    unfold get_index
    rw [hcl, hl]
  unfold get_point
  rw [hidx]

/-- C4 witness: the invariance at `lon = 100`, `s = +360`. -/
theorem lon_shift_invariance_witness :
    get_point testModel 0 (100 + 360) false = get_point testModel 0 100 false :=
  lon_shift_invariance testModel 0 100 360 false (Or.inl rfl) (by norm_num)
    (by norm_num) (by norm_num [correctLon]) (by norm_num [correctLon])

/-- C4 counterexample: `lon = -180`, `s = +360`.  The shifted longitude
180 is unchanged by the correction pass and lies in `[-180, 180]`, so
the claim's hypothesis holds; yet `get_point(0, -180)` returns data
(column 0) while `get_point(0, -180 + 360)` raises (column 360). -/
theorem lon_shift_fails_at_lon_neg180 :
    ((-180 : ℚ) + 360 = 180) ∧
    correctLon ((-180 : ℚ) + 360) = 180 ∧
    ((-180 : ℚ) ≤ 180 ∧ (180 : ℚ) ≤ 180) ∧
    get_point testModel 0 ((-180) + 360) false = none ∧
    (get_point testModel 0 (-180) false).isSome = true := by
  refine ⟨by norm_num, by norm_num [correctLon], by norm_num, ?_, ?_⟩
  · norm_num [get_point, get_index, correctLon, npIndex]
  · norm_num [get_point, get_index, correctLon, npIndex, pointLayers]

/-- C6 (amended): for `lat ∈ (-90, 90]` and `lon ∈ [-180, 180)` the
query succeeds and the mapping contains the key `"mantle"`.  (At
`lat = -90` the bucket is 180 and at `lon = 180` the bucket is 360,
both of which raise, so the claim's closed intervals are wrong at those
two edges.) -/
theorem get_point_mantle_present (m : CrustModel) (lat lon : ℚ) (inc : Bool)
    (h1 : -90 < lat) (h2 : lat ≤ 90) (h3 : -180 ≤ lon) (h4 : lon < 180) :
    (get_point m lat lon inc).isSome = true ∧
    "mantle" ∈ ((get_point m lat lon inc).getD []).map Prod.fst := by
  have hcl : correctLon lon = lon := correctLon_eq_self h3 h4.le
  have hA0 : (0 : ℤ) ≤ ⌊(90 : ℚ) - lat⌋ := Int.le_floor.mpr (by push_cast; linarith)
  have hA1 : ⌊(90 : ℚ) - lat⌋ < 180 := Int.floor_lt.mpr (by push_cast; linarith)
  have hB0 : (0 : ℤ) ≤ ⌊(180 : ℚ) + lon⌋ := Int.le_floor.mpr (by push_cast; linarith)
  have hB1 : ⌊(180 : ℚ) + lon⌋ < 360 := Int.floor_lt.mpr (by push_cast; linarith)
  have hi1 : (get_index lat lon).1 = ⌊(90 : ℚ) - lat⌋ := rfl
  have hi2 : (get_index lat lon).2 = ⌊(180 : ℚ) + lon⌋ := by
    simp [get_index, hcl]
  rcases hA : npIndex 180 (get_index lat lon).1 with _ | ilat
  · have hx := (npIndex_eq_none_iff 180 _).mp hA
    rw [hi1] at hx
    push_cast at hx
    omega
  rcases hB : npIndex 360 (get_index lat lon).2 with _ | ilon
  · have hx := (npIndex_eq_none_iff 360 _).mp hB
    rw [hi2] at hx
    push_cast at hx
    omega
  rw [get_point_eq_some hA hB]
  exact ⟨rfl, by simpa using mantle_mem_pointLayers m _ _ inc⟩

/-- C6 witness: the amended statement at `(0, 0)`. -/
theorem get_point_mantle_present_witness :
    (get_point testModel 0 0 false).isSome = true ∧
    "mantle" ∈ ((get_point testModel 0 0 false).getD []).map Prod.fst :=
  get_point_mantle_present testModel 0 0 false (by norm_num) (by norm_num)
    (by norm_num) (by norm_num)

/-- C6 counterexample: `(0, 180)` satisfies the claim's bounds
`lat ∈ [-90, 90]`, `lon ∈ [-180, 180]`, yet `get_point` raises
(longitude bucket 360), so no mapping with a mantle key is returned. -/
theorem get_point_fails_at_lon_180 :
    ((-90 : ℚ) ≤ 0 ∧ (0 : ℚ) ≤ 90 ∧ (-180 : ℚ) ≤ 180 ∧ (180 : ℚ) ≤ 180) ∧
    get_point testModel 0 180 false = none := by
  refine ⟨by norm_num, ?_⟩
  norm_num [get_point, get_index, correctLon, npIndex]

/-- C7: with `include_no_thickness=false`, every returned non-mantle
layer has `layer_thickness ≥ 0.01`, and conversely every layer whose
computed thickness is ≥ 0.01 appears in the mapping. -/
theorem thickness_filtering (m : CrustModel) (lat lon : ℚ)
    (ilat : Fin 180) (ilon : Fin 360) (l : List (String × LayerData))
    (p : String × LayerData) (i : Fin 9)
    (hA : npIndex 180 (get_index lat lon).1 = some ilat)
    (hB : npIndex 360 (get_index lat lon).2 = some ilon)
    (hl : get_point m lat lon false = some l) :
    (p ∈ l → p.1 ≠ "mantle" → (1 : ℚ)/100 ≤ p.2.layer_thickness) ∧
    ((1 : ℚ)/100 ≤ thicknessRow (m.bnds ilat ilon) i →
      layerName i ∈ l.map Prod.fst) := by
  rw [get_point_eq_some hA hB] at hl
  injection hl with hl
  subst hl
  constructor
  · intro hp hne
    rcases mem_pointLayers.mp hp with ⟨j, hcond, rfl⟩
    rcases hcond with ⟨-, ht⟩ | hm
    · exact ht
    · exact absurd hm hne
  · intro ht
    exact List.mem_map.mpr ⟨_, mem_pointLayers.mpr ⟨i, Or.inl ⟨rfl, ht⟩, rfl⟩, rfl⟩

/-- C7 witness: the water layer (thickness 1 km ≥ 0.01) appears in the
sample query's keys. -/
theorem thickness_filtering_witness :
    layerName ⟨0, by omega⟩ ∈ samplePoint.map Prod.fst :=
  (thickness_filtering testModel 0 0 ⟨90, by omega⟩ ⟨180, by omega⟩
    samplePoint ("water", ⟨0, 10, 20, 1, 0⟩) ⟨0, by omega⟩
    (by norm_num [get_index, correctLon, npIndex] <;> omega)
    (by norm_num [get_index, correctLon, npIndex] <;> omega)
    get_point_sample).2 (by norm_num [thicknessRow, testModel])

/-- C10: for every latitude whose bucket `⌊90 − lat⌋` lies in
`[0, 180)`, `get_point(lat, -180)` succeeds reading longitude column 0,
while `get_point(lat, 180)` raises: the correction fires only for
`lon > 180` strictly, so `lon = 180` maps to the out-of-range column
360. -/
theorem lon_boundary_asymmetry (m : CrustModel) (lat : ℚ) (inc : Bool)
    (h1 : 0 ≤ (get_index lat (-180)).1) (h2 : (get_index lat (-180)).1 < 180) :
    (get_index lat (-180)).2 = 0 ∧ (get_index lat 180).2 = 360 ∧
    (get_point m lat (-180) inc).isSome = true ∧
    get_point m lat 180 inc = none := by
  have hc1 : (get_index lat (-180)).2 = 0 := by
    norm_num [get_index, correctLon]
  have hc2 : (get_index lat 180).2 = 360 := by
    norm_num [get_index, correctLon]
  refine ⟨hc1, hc2, ?_, ?_⟩
  · have hA := npIndex_of_nonneg h1
      (show (get_index lat (-180)).1 < ((180 : ℕ) : ℤ) by exact_mod_cast h2)
    have hB : npIndex 360 (get_index lat (-180)).2 = some ⟨0, by omega⟩ := by
      rw [hc1]
      exact npIndex_of_nonneg le_rfl (by norm_num)
    rw [get_point_eq_some hA hB]
    rfl
  · rw [get_point_none_iff]
    right
    rw [hc2, npIndex_eq_none_iff]
    decide

/-- C10 witness: the asymmetry at `lat = 0` (bucket 90). -/
theorem lon_boundary_asymmetry_witness :
    (get_index 0 (-180)).2 = 0 ∧ (get_index 0 180).2 = 360 ∧
    (get_point testModel 0 (-180) false).isSome = true ∧
    get_point testModel 0 180 false = none :=
  lon_boundary_asymmetry testModel 0 false
    (by norm_num [get_index, correctLon]) (by norm_num [get_index, correctLon])

end Crust1
